import Mathlib

/-
Verification of the qwen credential-proxy repository (src/main.py, src/refresher.py)
against its natural-language specification.

The embedding translates the Python source into Lean definitions:
- time.time() is modelled as an explicit integer parameter `now` (epoch seconds;
  the program only ever compares times and adds whole seconds to them);
- the persisted credential file is modelled explicitly: for the credential
  manager claims it is the already-parsed record (`Option QwenCredentials`),
  and for the storage-layer claims it is a raw JSON layer (`FileState`);
- the provider token endpoint and the downstream API are oracles passed in as
  parameters (`ProviderResult`, `DownstreamResult`): a network call is counted
  each time the code reaches an httpx/requests call site;
- raised exceptions become `Except` error values (HTTP status codes for
  FastAPI HTTPException, `PyExc` for uncaught Python exceptions).
-/

namespace QwenProxy

/-- main.py lines 18-21: pydantic model QwenCredentials with fields
access_token, refresh_token, expiry_date (Unix timestamp, integer seconds). -/
structure QwenCredentials where
  access_token : String
  refresh_token : String
  expiry_date : Int
deriving DecidableEq, Repr

/-- The JSON body of a successful token-endpoint response, as consumed by
main.py lines 82-91 and refresher.py lines 62-67: `access_token` is accessed
with mandatory indexing, while `refresh_token` and `expires_in` are read with
.get and are therefore optional. -/
structure TokenResponse where
  access_token : String
  refresh_token_opt : Option String
  expires_in_opt : Option Int
deriving DecidableEq, Repr

/-- Outcome of the POST to the token refresh endpoint, as distinguished by the
exception handlers in main.py lines 98-103 and refresher.py lines 74-75:
a 2xx response with usable JSON (`ok`), a 4xx/5xx status raised by
raise_for_status (`httpStatusError`), a transport error (`netError`), or a
response whose body cannot be decoded / lacks access_token (`malformed`). -/
inductive ProviderResult where
  | ok (resp : TokenResponse)
  | httpStatusError
  | netError
  | malformed
deriving DecidableEq, Repr

/-- True on every constructor except `ok`. -/
def ProviderResult.isFailure : ProviderResult → Bool
  | .ok _ => false
  | _ => true

/-- main.py lines 85-92: the record built after a successful refresh.
expiry = int(time.time()) + new_token_data.get("expires_in", 3600);
refresh_token = new_token_data.get("refresh_token", creds.refresh_token). -/
def mkNewCreds (creds : QwenCredentials) (now : Int) (resp : TokenResponse) :
    QwenCredentials :=
  { access_token := resp.access_token
    refresh_token := resp.refresh_token_opt.getD creds.refresh_token
    expiry_date := now + resp.expires_in_opt.getD 3600 }

/-- Result of one call to refresh_access_token_if_needed: the value returned
or the HTTPException status raised, the persisted store after the call, and
the number of provider network calls issued. -/
structure ManagerOutcome where
  result : Except Nat QwenCredentials
  store : Option QwenCredentials
  networkCalls : Nat
deriving Repr

/-- main.py lines 56-106, refresh_access_token_if_needed.
`store` is the loaded credential record (None when load_credentials gave
none, which the function turns into HTTPException 500, line 63). The expiry
check (line 66) is `time.time() > expiry_date - 60`. On refresh success the
new record is saved (line 94) and returned (line 96); on any refresh failure
an HTTPException 500 is raised (lines 98-103) and the store is not written. -/
def refresh_access_token_if_needed (store : Option QwenCredentials) (now : Int)
    (provider : ProviderResult) : ManagerOutcome :=
  match store with
  | none => ⟨.error 500, none, 0⟩
  | some creds =>
    if now > creds.expiry_date - 60 then
      match provider with
      | .ok resp =>
        let new_creds := mkNewCreds creds now resp
        ⟨.ok new_creds, some new_creds, 1⟩
      | _ => ⟨.error 500, some creds, 1⟩
    else
      ⟨.ok creds, some creds, 0⟩

/-- refresher.py lines 65-71: the dict written by the worker after a
successful refresh carries the extra constant fields token_type and
resource_url; the loaded dict may or may not have them. -/
structure WorkerCreds where
  access_token : String
  refresh_token : String
  expiry_date : Int
  token_type : Option String
  resource_url : Option String
deriving DecidableEq, Repr

/-- refresher.py lines 45-75, refresh_token (the worker body for one cycle).
Returns the store after the cycle and the number of provider calls.
The function never reads expiry_date: whenever a record is loaded it posts a
refresh unconditionally (lines 53-60); on any exception it logs and leaves
the file untouched (lines 74-75). -/
def worker_refresh_token (store : Option WorkerCreds) (now : Int)
    (provider : ProviderResult) : Option WorkerCreds × Nat :=
  match store with
  | none => (none, 0)
  | some creds =>
    match provider with
    | .ok resp =>
      ((some { access_token := resp.access_token
               refresh_token := resp.refresh_token_opt.getD creds.refresh_token
               expiry_date := now + resp.expires_in_opt.getD 3600
               token_type := some "Bearer"
               resource_url := some "portal.qwen.ai" }), 1)
    | _ => (some creds, 1)

/-- One iteration step of the worker main loop (refresher.py lines 82-85):
run refresh_token once, accumulating the provider call count. -/
def worker_cycle (acc : Option WorkerCreds × Nat) (c : Int × ProviderResult) :
    Option WorkerCreds × Nat :=
  let r := worker_refresh_token acc.1 c.1 c.2
  (r.1, acc.2 + r.2)

/-- refresher.py lines 82-85: the worker loop runs refresh_token once per
cycle; `cycles` lists, per cycle, the wall-clock time and the provider
response for that cycle. -/
def worker_loop (store : Option WorkerCreds) (cycles : List (Int × ProviderResult)) :
    Option WorkerCreds × Nat :=
  cycles.foldl worker_cycle (store, 0)

lemma worker_refresh_some (c : WorkerCreds) (now : Int) (p : ProviderResult) :
    ∃ c', worker_refresh_token (some c) now p = (some c', 1) := by
  cases p <;> exact ⟨_, rfl⟩

lemma worker_loop_aux (cycles : List (Int × ProviderResult)) :
    ∀ (c : WorkerCreds) (n : Nat),
      (cycles.foldl worker_cycle (some c, n)).2 = n + cycles.length := by
  induction cycles with
  | nil => intro c n; simp
  | cons hd tl ih =>
    intro c n
    obtain ⟨c', hc⟩ := worker_refresh_some c hd.1 hd.2
    have : worker_cycle (some c, n) hd = (some c', n + 1) := by
      simp [worker_cycle, hc]
    rw [List.foldl_cons, this, ih c' (n + 1), List.length_cons]
    omega

/-- C1. For every refresh that the provider answers successfully, the new
record has access_token from the response, refresh_token from the response
when present else the previous one, expiry_date = now + expires_in
(3600 when omitted); the new record is both persisted and returned. -/
theorem c1_refresh_success (creds : QwenCredentials) (now : Int)
    (resp : TokenResponse) (h : now > creds.expiry_date - 60) :
    refresh_access_token_if_needed (some creds) now (.ok resp) =
      { result := .ok
          { access_token := resp.access_token
            refresh_token := resp.refresh_token_opt.getD creds.refresh_token
            expiry_date := now + resp.expires_in_opt.getD 3600 }
        store := some
          { access_token := resp.access_token
            refresh_token := resp.refresh_token_opt.getD creds.refresh_token
            expiry_date := now + resp.expires_in_opt.getD 3600 }
        networkCalls := 1 } := by
  simp [refresh_access_token_if_needed, mkNewCreds, h]

/-- Witness for C1 at the scenario from the spec: record (A1, R1, expired at
0), provider returns (A2, R2, expires_in 3600) at time 1000. -/
theorem c1_refresh_success_witness :
    refresh_access_token_if_needed (some ⟨"A1", "R1", 0⟩) 1000
        (.ok ⟨"A2", some "R2", some 3600⟩) =
      { result := .ok
          { access_token := "A2"
            refresh_token := (some "R2").getD "R1"
            expiry_date := 1000 + (some (3600 : Int)).getD 3600 }
        store := some
          { access_token := "A2"
            refresh_token := (some "R2").getD "R1"
            expiry_date := 1000 + (some (3600 : Int)).getD 3600 }
        networkCalls := 1 } :=
  c1_refresh_success ⟨"A1", "R1", 0⟩ 1000 ⟨"A2", some "R2", some 3600⟩ (by decide)

/-- C2. For every stored record with expiry_date - now > 60, the manager
makes no network call and returns the record unchanged, leaving the store
untouched. -/
theorem c2_fresh_no_call (creds : QwenCredentials) (now : Int)
    (provider : ProviderResult) (h : creds.expiry_date - now > 60) :
    refresh_access_token_if_needed (some creds) now provider =
      ⟨.ok creds, some creds, 0⟩ := by
  have hn : ¬ now > creds.expiry_date - 60 := by omega
  simp [refresh_access_token_if_needed, hn]

/-- Witness for C2 at a concrete fresh record. -/
theorem c2_fresh_no_call_witness :
    refresh_access_token_if_needed (some ⟨"A", "R", 1000000⟩) 0 .netError =
      ⟨.ok ⟨"A", "R", 1000000⟩, some ⟨"A", "R", 1000000⟩, 0⟩ :=
  c2_fresh_no_call ⟨"A", "R", 1000000⟩ 0 .netError (by decide)

/-- C3. For every failing refresh attempt (transport error, non-2xx status,
malformed response), the persisted record is left exactly as it was — in the
interactive manager, which also raises HTTPException 500 to the caller, and
in the background worker, which leaves the file untouched. -/
theorem c3_failure_preserves_store (creds : QwenCredentials)
    (wcreds : WorkerCreds) (now : Int) (provider : ProviderResult)
    (h : now > creds.expiry_date - 60) (hf : provider.isFailure = true) :
    refresh_access_token_if_needed (some creds) now provider =
        ⟨.error 500, some creds, 1⟩ ∧
      worker_refresh_token (some wcreds) now provider = (some wcreds, 1) := by
  cases provider with
  | ok resp => simp [ProviderResult.isFailure] at hf
  | httpStatusError =>
    exact ⟨by simp [refresh_access_token_if_needed, h], rfl⟩
  | netError =>
    exact ⟨by simp [refresh_access_token_if_needed, h], rfl⟩
  | malformed =>
    exact ⟨by simp [refresh_access_token_if_needed, h], rfl⟩

/-- Witness for C3: a timed-out refresh of an expired record at time 1000. -/
theorem c3_failure_preserves_store_witness :
    refresh_access_token_if_needed (some ⟨"A1", "R1", 0⟩) 1000 .netError =
        ⟨.error 500, some ⟨"A1", "R1", 0⟩, 1⟩ ∧
      worker_refresh_token (some ⟨"A1", "R1", 0, none, none⟩) 1000 .netError =
        (some ⟨"A1", "R1", 0, none, none⟩, 1) :=
  c3_failure_preserves_store ⟨"A1", "R1", 0⟩ ⟨"A1", "R1", 0, none, none⟩ 1000
    .netError (by decide) rfl

/-- A parsed JSON value, as produced by json.loads. Numbers are modelled as
integers (the program only ever writes integer timestamps). Object fields
model the Python dict obtained from parsing, so keys are assumed unique. -/
inductive Json where
  | jnull
  | jbool (b : Bool)
  | jnum (n : Int)
  | jstr (s : String)
  | jarr (elems : List Json)
  | jobj (fields : List (String × Json))

/-- The state of the credentials file: `none` when the file does not exist,
`some none` when it exists but json.loads raises JSONDecodeError,
`some (some j)` when it parses to the JSON value j. -/
def FileState : Type := Option (Option Json)

/-- Python-level exceptions relevant to the storage layer: TypeError (raised
by dictionary-unpacking a non-mapping) and pydantic ValidationError (raised
when a mapping fails model validation; it subclasses ValueError, not
TypeError or json.JSONDecodeError). -/
inductive PyExc where
  | typeError
  | validationError
deriving DecidableEq, Repr

/-- First value bound to a key in a parsed-dict field list. -/
def lookupField : List (String × Json) → String → Option Json
  | [], _ => none
  | (k, v) :: rest, key => if k = key then some v else lookupField rest key

/-- Pydantic string-field validation: only a JSON string is accepted. -/
def asStr : Json → Option String
  | .jstr s => some s
  | _ => none

/-- Pydantic int-field validation in lax mode: a JSON integer, or a string
holding an integer literal (pydantic coerces those). -/
def asInt : Json → Option Int
  | .jnum n => some n
  | .jstr s => s.toInt?
  | _ => none

/-- main.py line 47, QwenCredentials(**creds_data): unpacking a non-mapping
raises TypeError; a mapping missing one of the declared fields or holding a
wrongly-typed value raises ValidationError; extra keys are ignored. -/
def pydantic_validate (j : Json) : Except PyExc QwenCredentials :=
  match j with
  | .jobj fields =>
    match (lookupField fields "access_token").bind asStr,
          (lookupField fields "refresh_token").bind asStr,
          (lookupField fields "expiry_date").bind asInt with
    | some a, some r, some e => .ok ⟨a, r, e⟩
    | _, _, _ => .error .validationError
  | _ => .error .typeError

/-- main.py lines 42-50, load_credentials. The except clause catches only
json.JSONDecodeError and TypeError; pydantic ValidationError (a ValueError)
escapes the function. -/
def load_credentials (file : FileState) : Except PyExc (Option QwenCredentials) :=
  match file with
  | none => .ok none
  | some none => .ok none
  | some (some j) =>
    match pydantic_validate j with
    | .ok c => .ok (some c)
    | .error .typeError => .ok none
    | .error .validationError => .error .validationError

/-- refresher.py lines 17-23, load_credentials_from_file: returns the parsed
JSON value itself, with no validation of its shape; only a missing file or a
JSON decode error yield None. -/
def load_credentials_from_file (file : FileState) : Option Json :=
  match file with
  | none => none
  | some none => none
  | some (some j) => some j

/-- Outcome of the GET /credentials handler: a 200 JSONResponse with the raw
file contents, an HTTPException status, or an uncaught Python exception. -/
inductive GetCredsOutcome where
  | ok (content : Json)
  | httpError (status : Nat)
  | raised (e : PyExc)

/-- main.py lines 137-148, get_credentials. Calls load_credentials; raises
HTTPException 404 when it returns None; otherwise re-reads the file and
returns its raw parsed contents. The second component counts provider
refresh calls made by the handler: the source contains no call to
refresh_access_token_if_needed and no network operation, so it is 0 on
every path. -/
def get_credentials (file : FileState) : GetCredsOutcome × Nat :=
  match file with
  | none => (.httpError 404, 0)
  | some none => (.httpError 404, 0)
  | some (some j) =>
    match pydantic_validate j with
    | .ok _ => (.ok j, 0)
    | .error .typeError => (.httpError 404, 0)
    | .error .validationError => (.raised .validationError, 0)

/-- An inbound HTTP request as seen by the FastAPI app. -/
structure Request where
  method : String
  path : String
  headers : List (String × String)
  body : String

/-- main.py line 138: the route handler is declared with no parameters, so
FastAPI passes it nothing from the request; the headers and body of the
inbound request (hence any presented guard secret) are ignored entirely. -/
def app_get_credentials (req : Request) (file : FileState) :
    GetCredsOutcome × Nat :=
  get_credentials file

/-- Which registered route an inbound (method, path) is dispatched to, in
the registration order of main.py: POST /setup (line 115), GET /credentials
(line 137), then the catch-all /{path:path} for GET/POST/PUT/DELETE
(line 151), whose path parameter captures everything after the leading
slash. -/
inductive RouteChoice where
  | setup
  | credentials
  | proxy (path : String)
  | noRoute
deriving DecidableEq, Repr

/-- Route dispatch for the app in main.py. -/
def route (method : String) (path : String) : RouteChoice :=
  if method = "POST" ∧ path = "/setup" then .setup
  else if method = "GET" ∧ path = "/credentials" then .credentials
  else if method = "GET" ∨ method = "POST" ∨ method = "PUT" ∨ method = "DELETE" then
    .proxy (path.drop 1)
  else .noRoute

/-- A syntactically valid JSON object that is not a well-formed credential
record: it lacks refresh_token and expiry_date. -/
def missingFieldsJson : Json := .jobj [("access_token", .jstr "a")]

/-- C8 (evaluation at the failing input). The claim says load is total and
treats malformed persisted data as absent. The code disagrees: a JSON object
that fails record validation makes load_credentials raise pydantic
ValidationError (only JSONDecodeError and TypeError are caught), while the
file-missing and decode-error cases are indeed absorbed to None. The worker
loader additionally returns arbitrary non-record JSON as present. -/
theorem c8_load_raises_on_invalid_record :
    load_credentials (some (some missingFieldsJson)) = .error .validationError ∧
      load_credentials none = .ok none ∧
      load_credentials (some none) = .ok none ∧
      load_credentials_from_file (some (some (.jnum 5))) = some (.jnum 5) :=
  ⟨rfl, rfl, rfl, rfl⟩

/-- A well-formed persisted record, far from expiry. -/
def freshRecordJson : Json :=
  .jobj [("access_token", .jstr "A1"), ("refresh_token", .jstr "R1"),
         ("expiry_date", .jnum 99999999)]

/-- C4 (counterexample). No guard secret is configured anywhere in main.py
and the credentials route performs no secret check: a GET /credentials
request presenting an empty secret header is answered with the record
(200), not rejected with 401, contradicting the fail-closed claim. -/
theorem c4_counterexample :
    route "GET" "/credentials" = RouteChoice.credentials ∧
      app_get_credentials
          ⟨"GET", "/credentials", [("x-access-guard", "")], ""⟩
          (some (some freshRecordJson)) =
        (.ok freshRecordJson, 0) ∧
      (GetCredsOutcome.ok freshRecordJson ≠ GetCredsOutcome.httpError 401) := by
  refine ⟨rfl, rfl, ?_⟩
  intro h
  exact GetCredsOutcome.noConfusion h

lemma get_credentials_never_401 (file : FileState) :
    (get_credentials file).1 ≠ GetCredsOutcome.httpError 401 := by
  rcases file with _ | f
  · simp [get_credentials]
  rcases f with _ | j
  · simp [get_credentials]
  rcases h : pydantic_validate j with e | c
  · rcases e <;> simp [get_credentials, h]
  · simp [get_credentials, h]

/-- C4 (amended). The app supports no guard secret at all: the handler of
GET /credentials ignores the request, so any two requests to the route are
answered identically whatever secret they present, and the answer is never a
401 rejection (it is the record when one is stored, 404 otherwise). -/
theorem c4_amended_no_guard (h1 h2 : List (String × String)) (b1 b2 : String)
    (file : FileState) :
    app_get_credentials ⟨"GET", "/credentials", h1, b1⟩ file =
        app_get_credentials ⟨"GET", "/credentials", h2, b2⟩ file ∧
      (app_get_credentials ⟨"GET", "/credentials", h1, b1⟩ file).1 ≠
        GetCredsOutcome.httpError 401 :=
  ⟨rfl, get_credentials_never_401 file⟩

/-- A well-formed persisted record that is long past expiry. -/
def staleRecordJson : Json :=
  .jobj [("access_token", .jstr "A1"), ("refresh_token", .jstr "R1"),
         ("expiry_date", .jnum 0)]

/-- C7 (counterexample). The claim says GET /credentials triggers a refresh
first when the record is near expiry and returns a record reflecting that
refresh. The handler contains no refresh call at all: on a record expired
since epoch 0 it returns that stale record verbatim, with zero provider
calls, and its output does not even depend on the current time or on any
provider. -/
theorem c7_counterexample :
    get_credentials (some (some staleRecordJson)) = (.ok staleRecordJson, 0) :=
  rfl

/-- C7 (amended). GET /credentials returns the raw persisted file contents
as-is and never triggers a refresh, whatever the state of the file: the
provider call count is 0 on every path, and any file whose contents validate
as a record is returned verbatim, no matter how close to expiry it is. -/
theorem c7_amended_returns_raw_no_refresh (file : FileState) (j : Json)
    (c : QwenCredentials) (hv : pydantic_validate j = .ok c) :
    (get_credentials file).2 = 0 ∧
      get_credentials (some (some j)) = (.ok j, 0) := by
  constructor
  · rcases file with _ | f
    · rfl
    rcases f with _ | j'
    · rfl
    rcases h : pydantic_validate j' with e | c'
    · rcases e <;> simp [get_credentials, h]
    · simp [get_credentials, h]
  · simp [get_credentials, hv]

/-- Witness for C7 (amended) at the stale record. -/
theorem c7_amended_witness :
    (get_credentials (some (some staleRecordJson))).2 = 0 ∧
      get_credentials (some (some staleRecordJson)) =
        (.ok staleRecordJson, 0) :=
  c7_amended_returns_raw_no_refresh (some (some staleRecordJson))
    staleRecordJson ⟨"A1", "R1", 0⟩ rfl

/-- Python dict assignment d[k] = v on an insertion-ordered dict: replace the
value in place when the exact (case-sensitive) key is present, else append
the pair at the end. -/
def dictInsert (k v : String) : List (String × String) → List (String × String)
  | [] => [(k, v)]
  | (k2, v2) :: rest =>
    if k2 = k then (k, v) :: rest else (k2, v2) :: dictInsert k v rest

/-- Python str.lower(), modelled characterwise. -/
def pyLower (s : String) : String := String.mk (s.data.map Char.toLower)

/-- One step of the dict comprehension in main.py line 163: skip the pair
when its key lowercases to "host", else insert it into the dict being
built. -/
def insertHeader (d : List (String × String)) (kv : String × String) :
    List (String × String) :=
  if pyLower kv.1 = "host" then d else dictInsert kv.1 kv.2 d

/-- main.py lines 163-165: headers = the dict of inbound headers minus those
whose name lowercases to "host", then headers["Authorization"] = "Bearer "
+ access_token. The assignment is a plain case-sensitive dict write: it
overwrites an inbound entry only when its key is exactly "Authorization". -/
def forward_headers (inbound : List (String × String)) (access_token : String) :
    List (String × String) :=
  dictInsert "Authorization" ("Bearer " ++ access_token)
    (inbound.foldl insertHeader [])

lemma mem_dictInsert_self (k v : String) (d : List (String × String)) :
    (k, v) ∈ dictInsert k v d := by
  induction d with
  | nil => exact List.mem_singleton.mpr rfl
  | cons hd tl ih =>
    by_cases h : hd.1 = k
    · simp [dictInsert, h]
    · rcases hd with ⟨k2, v2⟩
      simp only [dictInsert, if_neg h]
      exact List.mem_cons_of_mem _ ih

lemma mem_dictInsert_of_ne (k v k' v' : String) (d : List (String × String))
    (hne : k' ≠ k) (hm : (k', v') ∈ d) : (k', v') ∈ dictInsert k v d := by
  induction d with
  | nil => cases hm
  | cons hd tl ih =>
    rcases hd with ⟨k2, v2⟩
    by_cases h : k2 = k
    · simp only [dictInsert, if_pos h]
      rcases List.mem_cons.mp hm with heq | htl
      · exact absurd (congrArg Prod.fst heq) (by simpa [h] using hne)
      · exact List.mem_cons_of_mem _ htl
    · simp only [dictInsert, if_neg h]
      rcases List.mem_cons.mp hm with heq | htl
      · exact heq ▸ List.mem_cons_self _ _
      · exact List.mem_cons_of_mem _ (ih htl)

lemma mem_dictInsert_elim (k v k' v' : String) (d : List (String × String))
    (hm : (k', v') ∈ dictInsert k v d) : k' = k ∨ (k', v') ∈ d := by
  induction d with
  | nil =>
    simp only [dictInsert] at hm
    left
    exact congrArg Prod.fst (List.mem_singleton.mp hm)
  | cons hd tl ih =>
    rcases hd with ⟨k2, v2⟩
    by_cases h : k2 = k
    · simp only [dictInsert, if_pos h] at hm
      rcases List.mem_cons.mp hm with heq | htl
      · left; exact congrArg Prod.fst heq
      · right; exact List.mem_cons_of_mem _ htl
    · simp only [dictInsert, if_neg h] at hm
      rcases List.mem_cons.mp hm with heq | htl
      · right; exact heq ▸ List.mem_cons_self _ _
      · rcases ih htl with hk | hd
        · left; exact hk
        · right; exact List.mem_cons_of_mem _ hd

lemma foldl_insertHeader_no_host (inbound : List (String × String)) :
    ∀ (d : List (String × String)),
      (∀ p ∈ d, pyLower p.1 ≠ "host") →
      ∀ p ∈ inbound.foldl insertHeader d, pyLower p.1 ≠ "host" := by
  induction inbound with
  | nil => intro d hd p hp; exact hd p hp
  | cons hd tl ih =>
    intro d hdok p hp
    refine ih (insertHeader d hd) ?_ p hp
    intro q hq
    by_cases hh : pyLower hd.1 = "host"
    · simpa [insertHeader, hh] using hdok q (by simpa [insertHeader, hh] using hq)
    · simp only [insertHeader, if_neg hh] at hq
      rcases mem_dictInsert_elim hd.1 hd.2 q.1 q.2 d hq with hk | hmem
      · exact hk ▸ hh
      · exact hdok q hmem

lemma foldl_insertHeader_preserve (rest : List (String × String)) :
    ∀ (d : List (String × String)) (k v : String),
      (k, v) ∈ d → k ∉ rest.map Prod.fst →
      (k, v) ∈ rest.foldl insertHeader d := by
  induction rest with
  | nil => intro d k v hm _; exact hm
  | cons hd tl ih =>
    intro d k v hm hk
    have hk1 : k ≠ hd.1 := by
      intro h; exact hk (by simp [h])
    have hk2 : k ∉ tl.map Prod.fst := by
      intro h; exact hk (List.mem_cons_of_mem _ h)
    refine ih (insertHeader d hd) k v ?_ hk2
    by_cases hh : pyLower hd.1 = "host"
    · simpa [insertHeader, hh] using hm
    · simp only [insertHeader, if_neg hh]
      exact mem_dictInsert_of_ne hd.1 hd.2 k v d hk1 hm

lemma foldl_insertHeader_mem (inbound : List (String × String)) :
    ∀ (d : List (String × String)) (k v : String),
      (inbound.map Prod.fst).Nodup → (k, v) ∈ inbound → pyLower k ≠ "host" →
      (k, v) ∈ inbound.foldl insertHeader d := by
  induction inbound with
  | nil => intro d k v _ hm; cases hm
  | cons hd tl ih =>
    intro d k v hnd hm hk
    have hnd' : (tl.map Prod.fst).Nodup := (List.nodup_cons.mp (by simpa using hnd)).2
    rcases List.mem_cons.mp hm with heq | htl
    · have hnot : hd.1 ∉ tl.map Prod.fst := (List.nodup_cons.mp (by simpa using hnd)).1
      subst heq
      rw [List.foldl_cons]
      refine foldl_insertHeader_preserve tl (insertHeader d (k, v)) k v ?_ (by simpa using hnot)
      simp only [insertHeader, if_neg hk]
      exact mem_dictInsert_self k v d
    · rw [List.foldl_cons]
      exact ih (insertHeader d hd) k v hnd' htl hk

/-- C6 (counterexample). The claim says the gateway removes the inbound
Host, Authorization, and guard-secret headers and injects a fresh bearer
header. HTTP header names are case-insensitive and the ASGI layer delivers
them lowercased, but the dict write uses the exact key "Authorization": an
inbound header named "authorization" is forwarded unchanged alongside the
injected one, and a would-be guard header is forwarded too (the app defines
no guard header to strip). -/
theorem c6_counterexample :
    forward_headers
        [("host", "h.example"), ("authorization", "Bearer evil"),
         ("x-access-guard", "s")] "tok" =
      [("authorization", "Bearer evil"), ("x-access-guard", "s"),
       ("Authorization", "Bearer tok")] ∧
      ("authorization", "Bearer evil") ∈
        forward_headers
          [("host", "h.example"), ("authorization", "Bearer evil"),
           ("x-access-guard", "s")] "tok" ∧
      ("x-access-guard", "s") ∈
        forward_headers
          [("host", "h.example"), ("authorization", "Bearer evil"),
           ("x-access-guard", "s")] "tok" := by
  refine ⟨rfl, ?_, ?_⟩ <;> decide

/-- C6 (amended). The gateway strips exactly the headers whose name
lowercases to "host"; it adds the entry ("Authorization", "Bearer " ++
token), overwriting an inbound header only when its name is exactly
"Authorization"; every other inbound header (guard-like headers and
differently-capitalized authorization headers included) passes through
unchanged (stated for inbound header lists without duplicate names, since a
Python dict collapses duplicates). -/
theorem c6_amended_header_policy (inbound : List (String × String))
    (tok k v : String) :
    (∀ p ∈ forward_headers inbound tok, pyLower p.1 ≠ "host") ∧
      ("Authorization", "Bearer " ++ tok) ∈ forward_headers inbound tok ∧
      ((inbound.map Prod.fst).Nodup → (k, v) ∈ inbound →
        pyLower k ≠ "host" → k ≠ "Authorization" →
        (k, v) ∈ forward_headers inbound tok) := by
  refine ⟨?_, ?_, ?_⟩
  · intro p hp
    rcases mem_dictInsert_elim "Authorization" ("Bearer " ++ tok) p.1 p.2
        (inbound.foldl insertHeader []) hp with hk | hmem
    · rw [hk]; decide
    · exact foldl_insertHeader_no_host inbound [] (by intro q hq; cases hq) p hmem
  · exact mem_dictInsert_self _ _ _
  · intro hnd hm hk hka
    exact mem_dictInsert_of_ne "Authorization" ("Bearer " ++ tok) k v _ hka
      (foldl_insertHeader_mem inbound [] k v hnd hm hk)

/-- Witness for C6 (amended) at a one-header request. -/
theorem c6_amended_header_policy_witness :
    ("x-custom", "y") ∈ forward_headers [("x-custom", "y")] "tok" ∧
      ("Authorization", "Bearer " ++ "tok") ∈
        forward_headers [("x-custom", "y")] "tok" :=
  ⟨(c6_amended_header_policy [("x-custom", "y")] "tok" "x-custom" "y").2.2
      (by decide) (by decide) (by decide) (by decide),
    (c6_amended_header_policy [("x-custom", "y")] "tok" "x-custom" "y").2.1⟩

/-- main.py line 29. -/
def QWEN_API_BASE_URL : String := "https://portal.qwen.ai"

/-- Does the first character list start with the second one. -/
def startsWithChars : List Char → List Char → Bool
  | _, [] => true
  | [], _ :: _ => false
  | c :: cs, p :: ps => c == p && startsWithChars cs ps

/-- Does the first character list contain the second as a contiguous run. -/
def containsSub : List Char → List Char → Bool
  | [], p => p.isEmpty
  | c :: cs, p => startsWithChars (c :: cs) p || containsSub cs p

/-- Python substring membership test `pat in s`, characterwise. -/
def strContains (s pat : String) : Bool := containsSub s.data pat.data

/-- The downstream response as consumed in main.py lines 180-196: status,
content-type header (empty when missing), the decoded JSON body when
response.json() succeeds, and the raw body. -/
structure DownstreamResponse where
  status : Nat
  content_type : String
  body_json : Option Json
  raw : String

/-- Outcome of the httpx request to the downstream API: a response, or a
transport error (httpx.RequestError, main.py line 198). -/
inductive DownstreamResult where
  | response (r : DownstreamResponse)
  | requestError

/-- The request the gateway sends downstream (main.py lines 172-178). -/
structure DownstreamCall where
  method : String
  url : String
  headers : List (String × String)
  body : String

/-- What proxy_to_qwen returns to its caller. -/
inductive ProxyResponse where
  | jsonResponse (content : Json) (status : Nat)
  | rawResponse (raw : String) (status : Nat) (media_type : String)

/-- Result of one call to proxy_to_qwen: the response returned or the
HTTPException status raised, the persisted store afterwards, the number of
provider refresh calls, and the downstream request issued (none when the
handler failed before contacting downstream). -/
structure ProxyOutcome where
  result : Except Nat ProxyResponse
  store : Option QwenCredentials
  providerCalls : Nat
  downstreamCall : Option DownstreamCall

/-- main.py lines 151-199, proxy_to_qwen. Runs
refresh_access_token_if_needed (propagating its HTTPException without
contacting downstream), builds the downstream URL as base + "/" + path and
the headers via forward_headers, sends the request, then relays: JSON
content-types are re-encoded as a JSONResponse (an undecodable JSON body
escapes as an uncaught exception, which FastAPI turns into a 500), any
other content-type is relayed raw, and a transport error becomes
HTTPException 502. -/
def proxy_to_qwen (method path : String) (req_headers : List (String × String))
    (body : String) (store : Option QwenCredentials) (now : Int)
    (provider : ProviderResult) (downstream : DownstreamResult) : ProxyOutcome :=
  let m := refresh_access_token_if_needed store now provider
  match m.result with
  | .error s => ⟨.error s, m.store, m.networkCalls, none⟩
  | .ok creds =>
    let call : DownstreamCall :=
      ⟨method, QWEN_API_BASE_URL ++ "/" ++ path,
        forward_headers req_headers creds.access_token, body⟩
    match downstream with
    | .requestError => ⟨.error 502, m.store, m.networkCalls, some call⟩
    | .response r =>
      if strContains r.content_type "application/json" then
        match r.body_json with
        | some j => ⟨.ok (.jsonResponse j r.status), m.store, m.networkCalls, some call⟩
        | none => ⟨.error 500, m.store, m.networkCalls, some call⟩
      else
        ⟨.ok (.rawResponse r.raw r.status r.content_type), m.store,
          m.networkCalls, some call⟩

/-- C9 (counterexample). There is no liveness route: GET / is dispatched to
the catch-all proxy route. With no credentials configured it is answered
with HTTPException 500 (authentication state matters, no static ok), and
with a valid credential it issues a downstream request to the API base —
the service contacts the downstream API rather than answering itself. -/
theorem c9_counterexample :
    route "GET" "/" = RouteChoice.proxy "" ∧
      (proxy_to_qwen "GET" "" [] "" none 0 .netError .requestError).result =
        .error 500 ∧
      (proxy_to_qwen "GET" "" [] "" none 0 .netError .requestError).downstreamCall =
        none ∧
      (proxy_to_qwen "GET" "" [] "" (some ⟨"A", "R", 1000000⟩) 0 .netError
          (.response ⟨200, "application/json", some .jnull, ""⟩)).downstreamCall =
        some ⟨"GET", "https://portal.qwen.ai/", [("Authorization", "Bearer A")], ""⟩ :=
  ⟨rfl, rfl, rfl, rfl⟩

lemma manager_fresh_ok (creds : QwenCredentials) (now : Int)
    (provider : ProviderResult) (h : creds.expiry_date - now > 60) :
    (refresh_access_token_if_needed (some creds) now provider).result = .ok creds ∧
      (refresh_access_token_if_needed (some creds) now provider).networkCalls = 0 := by
  rw [c2_fresh_no_call creds now provider h]
  exact ⟨rfl, rfl⟩

/-- C9 (amended). A GET request to / is dispatched to the catch-all proxy
route with an empty captured path; when a valid credential exists the
handler makes no provider call but does issue one downstream request, to
the downstream base URL followed by a bare slash, with the bearer header
injected — there is no static liveness answer. -/
theorem c9_amended_root_is_proxied (creds : QwenCredentials) (now : Int)
    (hs : List (String × String)) (b : String) (provider : ProviderResult)
    (downstream : DownstreamResult) (h : creds.expiry_date - now > 60) :
    route "GET" "/" = RouteChoice.proxy "" ∧
      (proxy_to_qwen "GET" "" hs b (some creds) now provider downstream).providerCalls = 0 ∧
      (proxy_to_qwen "GET" "" hs b (some creds) now provider downstream).downstreamCall =
        some ⟨"GET", "https://portal.qwen.ai/",
          forward_headers hs creds.access_token, b⟩ := by
  refine ⟨rfl, ?_, ?_⟩ <;>
    · have hm := c2_fresh_no_call creds now provider h
      have hurl : QWEN_API_BASE_URL ++ "/" ++ "" = "https://portal.qwen.ai/" := rfl
      cases downstream with
      | requestError => simp [proxy_to_qwen, hm, hurl]
      | response r =>
        by_cases hc : strContains r.content_type "application/json" = true
        · cases hj : r.body_json <;> simp [proxy_to_qwen, hm, hurl, hc, hj]
        · simp [proxy_to_qwen, hm, hurl, hc]

/-- Witness for C9 (amended) at a fresh record and a JSON 200 downstream
response. -/
theorem c9_amended_root_is_proxied_witness :
    route "GET" "/" = RouteChoice.proxy "" ∧
      (proxy_to_qwen "GET" "" [("accept", "a")] "b" (some ⟨"A", "R", 1000000⟩) 0
          .netError (.response ⟨200, "application/json", some .jnull, ""⟩)).providerCalls = 0 ∧
      (proxy_to_qwen "GET" "" [("accept", "a")] "b" (some ⟨"A", "R", 1000000⟩) 0
          .netError (.response ⟨200, "application/json", some .jnull, ""⟩)).downstreamCall =
        some ⟨"GET", "https://portal.qwen.ai/",
          forward_headers [("accept", "a")] "A", "b"⟩ :=
  c9_amended_root_is_proxied ⟨"A", "R", 1000000⟩ 0 [("accept", "a")] "b"
    .netError (.response ⟨200, "application/json", some .jnull, ""⟩) (by decide)

/-- The state of one asyncio task running refresh_access_token_if_needed.
The function body has exactly one suspension point, the awaited POST to the
token endpoint (main.py line 79); everything before it (synchronous file
load, line 61, and the expiry check, line 66) runs atomically, and
everything after it (parsing the response and the synchronous file save,
lines 82-96) runs atomically. `ready` is a task about to run the first
segment, `awaiting` one suspended at the POST holding the record it loaded,
`finished` one whose call has returned or raised. -/
inductive TaskState where
  | ready
  | awaiting (creds : QwenCredentials)
  | finished (res : Except Nat QwenCredentials)

/-- Global state of the event loop: the credentials file shared by all
tasks, the per-task states, and the number of provider calls issued so
far. -/
structure SysState where
  file : Option QwenCredentials
  tasks : List TaskState
  providerCalls : Nat

/-- Run one atomic segment of task i (asyncio interleaves tasks only at
await points; the code takes no lock, so nothing else restricts the
interleaving). A ready task loads the file and either finishes immediately
(no record: HTTPException 500; fresh record: returns it) or issues its own
provider call and suspends — the code never checks whether another task has
a refresh in flight. An awaiting task resumes with the provider response,
saving the rebuilt record on success. -/
def stepTask (now : Int) (provider : ProviderResult) (s : SysState) (i : Nat) :
    SysState :=
  match s.tasks.get? i with
  | some .ready =>
    match s.file with
    | none => { s with tasks := s.tasks.set i (.finished (.error 500)) }
    | some creds =>
      if now > creds.expiry_date - 60 then
        { s with tasks := s.tasks.set i (.awaiting creds),
                 providerCalls := s.providerCalls + 1 }
      else
        { s with tasks := s.tasks.set i (.finished (.ok creds)) }
  | some (.awaiting creds) =>
    match provider with
    | .ok resp =>
      let new_creds := mkNewCreds creds now resp
      { s with file := some new_creds,
               tasks := s.tasks.set i (.finished (.ok new_creds)) }
    | _ => { s with tasks := s.tasks.set i (.finished (.error 500)) }
  | _ => s

/-- Run the atomic segments named by the schedule, in order. -/
def runSchedule (now : Int) (provider : ProviderResult) (s : SysState)
    (schedule : List Nat) : SysState :=
  schedule.foldl (stepTask now provider) s

/-- Sanity link between the interleaving model and the sequential manager: a
single task run to completion produces exactly the sequential outcome. -/
lemma runSchedule_single_task (store : Option QwenCredentials) (now : Int)
    (provider : ProviderResult) :
    runSchedule now provider ⟨store, [.ready], 0⟩ [0, 0] =
      ⟨(refresh_access_token_if_needed store now provider).store,
        [.finished (refresh_access_token_if_needed store now provider).result],
        (refresh_access_token_if_needed store now provider).networkCalls⟩ := by
  rcases store with _ | creds
  · rfl
  by_cases h : now > creds.expiry_date - 60
  · cases provider <;>
      simp [runSchedule, stepTask, refresh_access_token_if_needed, h]
  · simp [runSchedule, stepTask, refresh_access_token_if_needed, h]

/-- C5 (counterexample). Two concurrent callers, both arriving while the
record (A1, R1, expired at 0) is near expiry: under the interleaving in
which both run their first segment before either refresh completes — the
ordinary interleaving for two overlapping requests — each issues its own
provider call, so two refresh calls are made, not exactly one as the
single-flight claim requires. -/
theorem c5_counterexample :
    (runSchedule 1000 (.ok ⟨"A2", some "R2", some 3600⟩)
        ⟨some ⟨"A1", "R1", 0⟩, [.ready, .ready], 0⟩
        [0, 1, 0, 1]).providerCalls = 2 ∧
      (runSchedule 1000 (.ok ⟨"A2", some "R2", some 3600⟩)
          ⟨some ⟨"A1", "R1", 0⟩, [.ready, .ready], 0⟩
          [0, 1, 0, 1]).providerCalls ≠ 1 :=
  ⟨rfl, by decide⟩

/-- C5 (amended). There is no single-flight serialization: every caller that
observes a near-expiry record when it loads issues its own provider call,
so whenever two concurrent callers both run their load-and-check segment
before either refresh has completed, two provider calls are made — N
overlapping callers make N calls, not one. -/
theorem c5_amended_no_single_flight (creds : QwenCredentials) (now : Int)
    (provider : ProviderResult) (h : now > creds.expiry_date - 60) :
    (runSchedule now provider ⟨some creds, [.ready, .ready], 0⟩ [0, 1]).providerCalls
      = 2 := by
  simp [runSchedule, stepTask, h]

/-- Witness for C5 (amended): two callers hitting an expired record while
the provider is unreachable still issue one call each. -/
theorem c5_amended_no_single_flight_witness :
    (runSchedule 500 .netError
        ⟨some ⟨"A", "R", 100⟩, [.ready, .ready], 0⟩ [0, 1]).providerCalls = 2 :=
  c5_amended_no_single_flight ⟨"A", "R", 100⟩ 500 .netError (by decide)

/-- C10. The background refresher refreshes unconditionally: even for a
record that is still valid (expiry more than the 60-second margin away),
one cycle issues a provider call and, on success, replaces the stored
access token with the one from the response; the outcome of a successful
cycle does not depend on the stored expiry_date at all; and the main loop
issues exactly one provider call per cycle as long as a record exists. -/
theorem c10_worker_always_refreshes (w : WorkerCreds) (now : Int)
    (resp : TokenResponse) (e e' : Int) (p : ProviderResult)
    (cycles : List (Int × ProviderResult)) (h : w.expiry_date - now > 60) :
    worker_refresh_token (some w) now (.ok resp) =
        (some { access_token := resp.access_token
                refresh_token := resp.refresh_token_opt.getD w.refresh_token
                expiry_date := now + resp.expires_in_opt.getD 3600
                token_type := some "Bearer"
                resource_url := some "portal.qwen.ai" }, 1) ∧
      (worker_refresh_token (some { w with expiry_date := e }) now (.ok resp)).1 =
        (worker_refresh_token (some { w with expiry_date := e' }) now (.ok resp)).1 ∧
      (worker_refresh_token (some w) now p).2 = 1 ∧
      (worker_loop (some w) cycles).2 = cycles.length := by
  refine ⟨rfl, rfl, ?_, ?_⟩
  · cases p <;> rfl
  · have := worker_loop_aux cycles w 0
    simpa [worker_loop] using this

/-- Witness for C10: a record valid for another 10000 seconds is still
refreshed and its access token replaced; a one-cycle loop with an
unreachable provider still makes its one call. -/
theorem c10_worker_always_refreshes_witness :
    worker_refresh_token (some ⟨"A", "R", 10000, none, none⟩) 0
        (.ok ⟨"A2", none, none⟩) =
        (some { access_token := "A2"
                refresh_token := (none : Option String).getD "R"
                expiry_date := 0 + (none : Option Int).getD 3600
                token_type := some "Bearer"
                resource_url := some "portal.qwen.ai" }, 1) ∧
      (worker_refresh_token (some { (⟨"A", "R", 10000, none, none⟩ : WorkerCreds) with expiry_date := 1 }) 0
          (.ok ⟨"A2", none, none⟩)).1 =
        (worker_refresh_token (some { (⟨"A", "R", 10000, none, none⟩ : WorkerCreds) with expiry_date := 2 }) 0
          (.ok ⟨"A2", none, none⟩)).1 ∧
      (worker_refresh_token (some ⟨"A", "R", 10000, none, none⟩) 0 .netError).2 = 1 ∧
      (worker_loop (some ⟨"A", "R", 10000, none, none⟩) [(0, .netError)]).2 =
        [((0 : Int), ProviderResult.netError)].length :=
  c10_worker_always_refreshes ⟨"A", "R", 10000, none, none⟩ 0 ⟨"A2", none, none⟩
    1 2 .netError [(0, .netError)] (by decide)

end QwenProxy
